import Mathlib

/-!
Shallow embedding of the query-bus dispatch engine (package query,
iterator_handler.go) together with the collaborator contracts it consumes
(handler.go, cache_adapter.go).  The engine code is translated function by
function; effectful calls (handler invocations, cache-adapter calls, error
fan-out deliveries, worker/drain signals) are recorded in an event trace so
that ordering and skipping claims become statements about the trace.  The
result containers and the default memory adapter are not among the given
source files; they are modelled from the spec where noted.
-/

namespace QueryBus

/-- Opaque byte identifier (Go []byte). -/
abbrev Bytes := List Nat

/-- Opaque request context (Go context.Context): the engine only threads it
through to handlers and adapters, never inspects it. -/
abbrev Ctx := Nat

/-- Cache capability of a query (the Cacheable interface): a cache key and a
cache duration in nanoseconds; a duration of 0 or less means do not cache. -/
structure CacheInfo where
  key : Bytes
  duration : Int
deriving DecidableEq, Repr

/-- A query value (the Query interface): a stable identity, optionally
extended with the Cacheable capability (Go type switch qry.(Cacheable)). -/
structure Qry where
  id : Bytes
  cacheable : Option CacheInfo := none
deriving DecidableEq, Repr

/-- Error taxonomy of the engine (InvalidQueryError, BusNotInitializedError,
BusIsShuttingDownError, NewErrorNoQueryHandlersFound, NewErrorQueryTimedOut,
plus opaque handler-originated errors). -/
inductive Err where
  | invalidQuery
  | notInitialized
  | shuttingDown
  | noHandlersFound (qid : Bytes)
  | queryTimedOut (qid : Bytes)
  | handlerErr (code : Nat)
deriving DecidableEq, Repr

/-- Modelled from the spec: the synchronous result container (Result, whose
implementation file is not among the given sources; spec data model).  It
holds the accumulated value set, the handled flag, the propagation-stopped
flag, and cache metadata (served from cache, just stored and when, expiry). -/
structure Result where
  values : List String := []
  handled : Bool := false
  propStopped : Bool := false
  fromCache : Bool := false
  isCached : Bool := false
  cachedAt : Int := 0
  expiresAt : Int := 0
deriving DecidableEq, Repr

/-- Modelled from the spec: newResult builds a fresh empty result. -/
def newResult : Result := {}

/-- Modelled from the spec: newCacheableResult builds a fresh empty result
for a cacheable query that missed every adapter. -/
def newCacheableResult (_q : Qry) : Result := {}

/-- Modelled from the spec: res.loadedFromCache() marks the result as served
from cache. -/
def Result.loadedFromCache (r : Result) : Result := { r with fromCache := true }

/-- Modelled from the spec: res.expires(t) records the expiry timestamp. -/
def Result.expires (r : Result) (t : Int) : Result := { r with expiresAt := t }

/-- Modelled from the spec: res.cached(at) marks the result as just stored at
the given time. -/
def Result.cached (r : Result) (t : Int) : Result :=
  { r with isCached := true, cachedAt := t }

/-- Modelled from the spec: res.isHandled() reads the handled flag. -/
def Result.isHandled (r : Result) : Bool := r.handled

/-- Modelled from the spec: res.propagationStopped() reads the
propagation-stopped flag. -/
def Result.propagationStopped (r : Result) : Bool := r.propStopped

/-- Modelled from the spec: the streaming result container (IteratorResult,
whose implementation file is not among the given sources).  It holds the
delivered items, the handled and propagation-stopped flags, the closed flag,
the delivery-buffer size it was created with, and — standing in for the
runtime listener rendezvous — whether a consumer attaches within the
listener-wait timeout. -/
structure IterResult where
  items : List String := []
  handled : Bool := false
  propStopped : Bool := false
  closed : Bool := false
  buffer : Nat := 0
deriving DecidableEq, Repr

/-- Modelled from the spec: newIteratorResult builds a fresh open handle with
the given delivery-buffer size. -/
def newIteratorResult (buf : Nat) : IterResult := { buffer := buf }

/-- Modelled from the spec: res.isHandled() reads the handled flag. -/
def IterResult.isHandled (r : IterResult) : Bool := r.handled

/-- Modelled from the spec: res.propagationStopped() reads the
propagation-stopped flag. -/
def IterResult.propagationStopped (r : IterResult) : Bool := r.propStopped

/-- Modelled from the spec: res.close() closes the handle (idempotent). -/
def IterResult.close (r : IterResult) : IterResult := { r with closed := true }

/-- A query handler (the Handler interface): given the context, the query and
the result so far, it returns the mutated result and an optional error.  The
pure function stands for one Handle(ctx, qry, res) call. -/
abbrev Handler := Ctx → Qry → Result → Result × Option Err

/-- An iterator query handler (the IteratorHandler interface). -/
abbrev IterHandler := Ctx → Qry → IterResult → IterResult × Option Err

/-- A cache adapter (the CacheAdapter interface): Get and Set as pure
functions of (ctx, query, result), plus a registration identity used by the
event trace to tell adapters apart. -/
structure CacheAdapter where
  id : Nat
  get : Ctx → Qry → Option Result
  set : Ctx → Qry → Result → Bool

/-- Observable effects of one engine operation, in program order: handler
invocations (by registration index), error fan-out deliveries (one per
registered error observer), adapter Get/Set/Shutdown calls (by adapter
identity), the sentinel pushes and closed acknowledgments of the shutdown
drain, and iterator-handle closes. -/
inductive Event where
  | handlerCall (idx : Nat)
  | errorDelivered (observer : Nat) (q : Option Qry) (e : Err)
  | adapterGet (id : Nat)
  | adapterSet (id : Nat)
  | adapterShutdown (id : Nat)
  | sentinelPushed
  | workerClosedAck
  | iterClose
deriving DecidableEq, Repr

/-- The Bus struct: configuration, atomic state flags (initialized,
shuttingDown, iteratorWorkers), and the registered handler/observer/adapter
lists.  Error observers are external collaborators with no return value, so
they are carried as identities; the channels are represented by the drain
events of the trace. -/
structure Bus where
  iteratorWorkerPoolSize : Nat
  iteratorQueueBuffer : Nat
  iteratorResultBuffer : Nat
  initialized : Bool
  shuttingDown : Bool
  iteratorWorkers : Nat
  handlers : List Handler
  iteratorHandlers : List IterHandler
  errorHandlers : List Nat
  cacheAdapters : List CacheAdapter

/-- Modelled from the spec: NewMemoryCacheAdapter builds the default
in-memory adapter installed by NewBus (its implementation file is not among
the given sources).  Only its registration identity is relevant to the
engine-level claims; its store starts empty. -/
def NewMemoryCacheAdapter : CacheAdapter :=
  { id := 0, get := fun _ _ => none, set := fun _ _ _ => true }

/-- NewBus instantiates the Bus struct (pool size defaults to the host
parallelism runtime.GOMAXPROCS(0), passed in as a parameter). -/
def NewBus (gomaxprocs : Nat) : Bus :=
  { iteratorWorkerPoolSize := gomaxprocs
    iteratorQueueBuffer := 100
    iteratorResultBuffer := 0
    initialized := false
    shuttingDown := false
    iteratorWorkers := 0
    handlers := []
    iteratorHandlers := []
    errorHandlers := []
    cacheAdapters := [NewMemoryCacheAdapter] }

/-- Handlers replaces the regular-query handler list. -/
def Bus.Handlers (bus : Bus) (hdls : List Handler) : Bus :=
  { bus with handlers := hdls }

/-- ErrorHandlers replaces the error-observer list. -/
def Bus.ErrorHandlers (bus : Bus) (hdls : List Nat) : Bus :=
  { bus with errorHandlers := hdls }

/-- CacheAdapters replaces the adapter list: it first calls Shutdown on every
previously registered adapter, then installs the new list. -/
def Bus.CacheAdapters (bus : Bus) (adps : List CacheAdapter) : Bus × List Event :=
  ({ bus with cacheAdapters := adps },
   bus.cacheAdapters.map (fun adp => Event.adapterShutdown adp.id))

/-- error is the Error Fan-out: it delivers (ctx, qry, err) to every
registered error observer in registration order. -/
def Bus.error (bus : Bus) (_ctx : Ctx) (q : Option Qry) (e : Err) : List Event :=
  bus.errorHandlers.map (fun h => Event.errorDelivered h q e)

/-- isValid rejects a nil query with InvalidQueryError, reporting it via the
fan-out. -/
def Bus.isValid (bus : Bus) (ctx : Ctx) (q : Option Qry) : Option Err × List Event :=
  match q with
  | none => (some Err.invalidQuery, bus.error ctx none Err.invalidQuery)
  | some _ => (none, [])

/-- isIteratorValid additionally rejects a query when the bus is not
initialized (BusNotInitializedError) or is shutting down
(BusIsShuttingDownError), in that order. -/
def Bus.isIteratorValid (bus : Bus) (ctx : Ctx) (q : Option Qry) : Option Err × List Event :=
  match bus.isValid ctx q with
  | (some e, tr) => (some e, tr)
  | (none, _) =>
    if !bus.initialized then
      (some Err.notInitialized, bus.error ctx q Err.notInitialized)
    else if bus.shuttingDown then
      (some Err.shuttingDown, bus.error ctx q Err.shuttingDown)
    else (none, [])

/-- How one handler-chain loop ended: it ran through every handler, a handler
stopped propagation, or a handler returned an error. -/
inductive LoopExit where
  | completed
  | stopped
  | errored (e : Err)
deriving DecidableEq, Repr

/-- The loop body of the synchronous chain (the for loop of Bus.query over
bus.handlers, enumerated with registration indices): invoke each handler in
order; on error, report via fan-out and return it (later handlers skipped);
on propagation stopped, break out of the loop. -/
def Bus.queryLoop (bus : Bus) (ctx : Ctx) (q : Qry) :
    List (Nat × Handler) → Result → Result × LoopExit × List Event
  | [], res => (res, LoopExit.completed, [])
  | (i, hdl) :: rest, res =>
    match hdl ctx q res with
    | (res1, some err) =>
      (res1, LoopExit.errored err, Event.handlerCall i :: bus.error ctx (some q) err)
    | (res1, none) =>
      if res1.propagationStopped then
        (res1, LoopExit.stopped, [Event.handlerCall i])
      else
        let out := bus.queryLoop ctx q rest res1
        (out.1, out.2.1, Event.handlerCall i :: out.2.2)

/-- The loop body of the streaming chain (the for loop of Bus.iteratorQuery
over bus.iteratorHandlers): same order and error rule, but a propagation stop
returns from the function rather than breaking out of the loop. -/
def Bus.iterLoop (bus : Bus) (ctx : Ctx) (q : Qry) :
    List (Nat × IterHandler) → IterResult → IterResult × LoopExit × List Event
  | [], res => (res, LoopExit.completed, [])
  | (i, hdl) :: rest, res =>
    match hdl ctx q res with
    | (res1, some err) =>
      (res1, LoopExit.errored err, Event.handlerCall i :: bus.error ctx (some q) err)
    | (res1, none) =>
      if res1.propagationStopped then
        (res1, LoopExit.stopped, [Event.handlerCall i])
      else
        let out := bus.iterLoop ctx q rest res1
        (out.1, out.2.1, Event.handlerCall i :: out.2.2)

/-- The adapter write loop of handleCache: for each adapter in order,
cached = cached or adp.Set(ctx, qry, res).  The Go boolean or is
short-circuiting, so once cached is true the remaining Set calls are not
evaluated (and leave no adapterSet event). -/
def setAdapters (ctx : Ctx) (q : Qry) (res : Result) (cached : Bool) :
    List CacheAdapter → Bool × List Event
  | [] => (cached, [])
  | adp :: rest =>
    if cached then
      setAdapters ctx q res true rest
    else
      let b := adp.set ctx q res
      let out := setAdapters ctx q res b rest
      (out.1, Event.adapterSet adp.id :: out.2)

/-- handleCache, the cache write-back: only for a Cacheable query with a
strictly positive duration.  It stamps the expiry (dispatch time now plus the
duration) on the result, runs the adapter write loop, and marks the result
cached at the dispatch time when the loop accepted. -/
def Bus.handleCache (bus : Bus) (ctx : Ctx) (q : Qry) (res : Result) (now : Int) :
    Result × List Event :=
  match q.cacheable with
  | some ci =>
    if 0 < ci.duration then
      let res1 := res.expires (now + ci.duration)
      let out := setAdapters ctx q res1 false bus.cacheAdapters
      (if out.1 then res1.cached now else res1, out.2)
    else (res, [])
  | none => (res, [])

/-- The tail of Bus.query shared by the completed and broken-out loop exits:
the NoHandlersFound check followed by handleCache. -/
def Bus.queryAfterLoop (bus : Bus) (ctx : Ctx) (q : Qry) (res1 : Result) (now : Int)
    (tr : List Event) : Result × Option Err × List Event :=
  if !res1.isHandled then
    (res1, some (Err.noHandlersFound q.id),
     tr ++ bus.error ctx (some q) (Err.noHandlersFound q.id))
  else
    let out := bus.handleCache ctx q res1 now
    (out.1, none, tr ++ out.2)

/-- query, the synchronous dispatch after validation and cache probing: run
the handler loop; on a handler error return it; otherwise (the loop completed
or was broken out of by a propagation stop) synthesize, report and return
NoHandlersFound when the result was never marked handled; on success perform
the cache write-back and return no error. -/
def Bus.query (bus : Bus) (ctx : Ctx) (q : Qry) (res : Result) (now : Int) :
    Result × Option Err × List Event :=
  match bus.queryLoop ctx q bus.handlers.enum res with
  | (res1, LoopExit.errored err, tr) => (res1, some err, tr)
  | (res1, LoopExit.completed, tr) => bus.queryAfterLoop ctx q res1 now tr
  | (res1, LoopExit.stopped, tr) => bus.queryAfterLoop ctx q res1 now tr

/-- iteratorQuery, the streaming dispatch a worker runs: the handler loop; a
handler error or a propagation stop returns immediately, and only a run that
completed the loop checks the handled flag and reports NoHandlersFound. -/
def Bus.iteratorQuery (bus : Bus) (ctx : Ctx) (q : Qry) (res : IterResult) :
    IterResult × List Event :=
  match bus.iterLoop ctx q bus.iteratorHandlers.enum res with
  | (res1, LoopExit.completed, tr) =>
    if !res1.isHandled then
      (res1, tr ++ bus.error ctx (some q) (Err.noHandlersFound q.id))
    else (res1, tr)
  | (res1, LoopExit.errored _, tr) => (res1, tr)
  | (res1, LoopExit.stopped, tr) => (res1, tr)

/-- The cache probe loop of Bus.result: adapters are read in registration
order; the first adapter whose Get returns a result wins and the probe stops;
a Get returning nothing advances to the next adapter. -/
def probeAdapters (ctx : Ctx) (q : Qry) :
    List CacheAdapter → Option Result × List Event
  | [] => (none, [])
  | adp :: rest =>
    match adp.get ctx q with
    | some res => (some res, [Event.adapterGet adp.id])
    | none =>
      let out := probeAdapters ctx q rest
      (out.1, Event.adapterGet adp.id :: out.2)

/-- result builds the result for a dispatch: for a Cacheable query it probes
the adapters and, on a hit, marks the hit as loaded from cache and returns it
with cached = true; on an all-adapter miss it returns a fresh cacheable
result, and for a non-cacheable query a fresh result, with cached = false. -/
def Bus.result (bus : Bus) (ctx : Ctx) (q : Qry) : Result × Bool × List Event :=
  match q.cacheable with
  | some _ =>
    match probeAdapters ctx q bus.cacheAdapters with
    | (some res, tr) => (res.loadedFromCache, true, tr)
    | (none, tr) => (newCacheableResult q, false, tr)
  | none => (newResult, false, [])

/-- Query, the public synchronous dispatch: validation, then the cache probe
(returning a hit with a nil error), then the handler chain.  The result
component is none exactly when the Go method returns a nil result pointer. -/
def Bus.Query (bus : Bus) (ctx : Ctx) (q : Option Qry) (now : Int) :
    Option Result × Option Err × List Event :=
  match bus.isValid ctx q, q with
  | (some err, tr), _ => (none, some err, tr)
  | (none, _), some qv =>
    let pr := bus.result ctx qv
    if pr.2.1 then (some pr.1, none, pr.2.2)
    else
      let out := bus.query ctx qv pr.1 now
      (some out.1, out.2.1, pr.2.2 ++ out.2.2)
  | (none, _), none =>
    (none, some Err.invalidQuery, bus.error ctx none Err.invalidQuery)

/-- A pending streaming request: the envelope (context, query, handle) placed
on the work queue; the queue element is an Option, none being the shutdown
sentinel. -/
structure PendingIteratorQuery where
  ctx : Ctx
  qry : Qry
  res : IterResult
deriving DecidableEq, Repr

/-- enqueueIteratorQuery wraps (ctx, qry, res) into the pending envelope
placed on the work queue. -/
def Bus.enqueueIteratorQuery (_bus : Bus) (ctx : Ctx) (qry : Qry) (res : IterResult) :
    PendingIteratorQuery :=
  { ctx := ctx, qry := qry, res := res }

/-- IteratorQuery, the public streaming dispatch: validation (nil query,
not initialized, shutting down), then a fresh handle is created with the
configured delivery buffer, the pending request is enqueued (returned here as
the second component so the worker model can consume it), and the handle is
returned immediately with a nil error. -/
def Bus.IteratorQuery (bus : Bus) (ctx : Ctx) (q : Option Qry) :
    Option (IterResult × PendingIteratorQuery) × Option Err × List Event :=
  match bus.isIteratorValid ctx q, q with
  | (some err, tr), _ => (none, some err, tr)
  | (none, _), some qv =>
    let res := newIteratorResult bus.iteratorResultBuffer
    (some (res, bus.enqueueIteratorQuery ctx qv res), none, [])
  | (none, tr), none => (none, some Err.invalidQuery, tr)

/-- What one worker loop iteration did with its dequeued element. -/
inductive WorkerStep where
  | exited
  | continued (res : IterResult)
deriving DecidableEq, Repr

/-- One iteration of iteratorWorker on a dequeued queue element: a nil
element is the shutdown sentinel and breaks out of the loop; otherwise the
worker waits for a listener up to the fixed timeout — listenerArrives is the
outcome of that penQry.res.waitListener(iteratorListenerTimeout) call.  If a
consumer attached, the worker runs the streaming chain and closes the handle;
if not, it abandons the request, reporting QueryTimedOut via the fan-out, and
never touches the handle again. -/
def Bus.iteratorWorkerStep (bus : Bus) (penQry : Option PendingIteratorQuery)
    (listenerArrives : Bool) : WorkerStep × List Event :=
  match penQry with
  | none => (WorkerStep.exited, [])
  | some pq =>
    if listenerArrives then
      let out := bus.iteratorQuery pq.ctx pq.qry pq.res
      (WorkerStep.continued out.1.close, out.2 ++ [Event.iterClose])
    else
      (WorkerStep.continued pq.res,
       bus.error pq.ctx (some pq.qry) (Err.queryTimedOut pq.qry.id))

/-- iteratorWorkerUp increments the live-worker count. -/
def Bus.iteratorWorkerUp (bus : Bus) : Bus :=
  { bus with iteratorWorkers := bus.iteratorWorkers + 1 }

/-- iteratorWorkerDown decrements the live-worker count. -/
def Bus.iteratorWorkerDown (bus : Bus) : Bus :=
  { bus with iteratorWorkers := bus.iteratorWorkers - 1 }

/-- The drain loop of shutdown, by outstanding-worker count: while workers
remain, push one nil sentinel onto the queue, wait for one closed
acknowledgment, and decrement the count (iteratorWorkerDown). -/
def drainWorkers : Nat → List Event
  | 0 => []
  | n + 1 => Event.sentinelPushed :: Event.workerClosedAck :: drainWorkers n

/-- shutdown, the drain a winning Shutdown caller performs: drain every
outstanding worker, then call Shutdown on every cache adapter, then clear the
initialized flag (CompareAndSwap 1 to 0) and the shuttingDown flag
(CompareAndSwap 1 to 0), leaving the bus re-initializable. -/
def Bus.shutdown (bus : Bus) : Bus × List Event :=
  ({ bus with iteratorWorkers := 0, initialized := false, shuttingDown := false },
   drainWorkers bus.iteratorWorkers
     ++ bus.cacheAdapters.map (fun adp => Event.adapterShutdown adp.id))

/-- Shutdown, the public entry: CompareAndSwap the shuttingDown flag from 0
to 1; only the caller that wins performs the drain, a caller that finds the
flag already set returns immediately with no effect. -/
def Bus.Shutdown (bus : Bus) : Bus × List Event :=
  if bus.shuttingDown then (bus, [])
  else Bus.shutdown { bus with shuttingDown := true }

/-- initialize performs the CompareAndSwap of the initialized flag from 0 to
1; it tells the caller whether it won. -/
def Bus.initialize (bus : Bus) : Bool × Bus :=
  if bus.initialized then (false, bus)
  else (true, { bus with initialized := true })

/-- The spawn loop of InitializeIteratorHandlers: call iteratorWorkerUp once
per pool slot (the launched goroutine itself is modelled by
iteratorWorkerStep). -/
def Bus.spawnWorkers (bus : Bus) : Nat → Bus
  | 0 => bus
  | n + 1 => (bus.spawnWorkers n).iteratorWorkerUp

/-- InitializeIteratorHandlers: only a winning initialize installs the
iterator handlers, creates the queue, and spawns the worker pool, calling
iteratorWorkerUp once per worker. -/
def Bus.InitializeIteratorHandlers (bus : Bus) (hdls : List IterHandler) : Bus :=
  match bus.initialize with
  | (true, bus1) =>
    Bus.spawnWorkers { bus1 with iteratorHandlers := hdls } bus1.iteratorWorkerPoolSize
  | (false, _) => bus

/-- The handler-invocation subtrace: the registration indices of the handler
calls recorded in a trace, in order. -/
def handlerCalls (tr : List Event) : List Nat :=
  tr.filterMap (fun e => match e with | Event.handlerCall i => some i | _ => none)

/-- The short-circuit disjunction the adapter write loop computes: whether
some adapter accepts the store (it equals any-accepts because the adapter
functions are pure). -/
def setScan (ctx : Ctx) (q : Qry) (res : Result) : List CacheAdapter → Bool
  | [] => false
  | adp :: rest => adp.set ctx q res || setScan ctx q res rest

/-- The adapters the write loop actually invokes Set on: every adapter in
order up to and including the first one that accepts. -/
def setAttempted (ctx : Ctx) (q : Qry) (res : Result) : List CacheAdapter → List CacheAdapter
  | [] => []
  | adp :: rest =>
    if adp.set ctx q res then [adp]
    else adp :: setAttempted ctx q res rest

/-! Concrete fixtures used to evaluate the model on closed inputs. -/

/-- A handler that claims every query: it marks the result handled and
appends one value. -/
def hdlMark : Handler :=
  fun _ _ r => ({ r with handled := true, values := r.values ++ ["bar"] }, none)

/-- A handler that stops propagation without contributing data. -/
def hdlStop : Handler := fun _ _ r => ({ r with propStopped := true }, none)

/-- A handler that always fails with an opaque error. -/
def hdlFail : Handler := fun _ _ r => (r, some (Err.handlerErr 42))

/-- An iterator handler that yields one item and marks the result handled. -/
def iterMark : IterHandler :=
  fun _ _ r => ({ r with handled := true, items := r.items ++ ["bar"] }, none)

/-- An iterator handler that stops propagation without contributing data. -/
def iterStop : IterHandler := fun _ _ r => ({ r with propStopped := true }, none)

/-- An adapter with no stored value that accepts every store. -/
def adapterAcceptA : CacheAdapter :=
  { id := 1, get := fun _ _ => none, set := fun _ _ _ => true }

/-- A second accepting adapter, distinguishable in the trace. -/
def adapterAcceptB : CacheAdapter :=
  { id := 2, get := fun _ _ => none, set := fun _ _ _ => true }

/-- An adapter with no stored value that rejects every store. -/
def adapterRejectC : CacheAdapter :=
  { id := 3, get := fun _ _ => none, set := fun _ _ _ => false }

/-- A stored result an adapter can serve. -/
def hitResult : Result := { values := ["cached-bar"], handled := true }

/-- An adapter holding hitResult for every query. -/
def adapterHitD : CacheAdapter :=
  { id := 4, get := fun _ _ => some hitResult, set := fun _ _ _ => true }

/-- A plain, non-cacheable query. -/
def q1 : Qry := { id := [1] }

/-- Cache capability with a strictly positive duration. -/
def ciC : CacheInfo := { key := [9], duration := 5 }

/-- A cacheable query with duration 5. -/
def qc : Qry := { id := [2], cacheable := some ciC }

/-- A bus with one claiming handler and two accepting adapters. -/
def busC1 : Bus :=
  { NewBus 2 with handlers := [hdlMark], cacheAdapters := [adapterAcceptA, adapterAcceptB] }

/-- A bus whose only iterator handler stops propagation, with one observer. -/
def busIterStop : Bus :=
  { NewBus 2 with iteratorHandlers := [iterStop], errorHandlers := [7], initialized := true }

/-- A bus whose only sync handler stops propagation, with one observer. -/
def busSyncStop : Bus :=
  { NewBus 2 with handlers := [hdlStop], errorHandlers := [7] }

/-- An initialized bus with a two-worker pool. -/
def busInit : Bus := (NewBus 2).InitializeIteratorHandlers []

/-- The bus after a first Shutdown has fully completed. -/
def busDrained : Bus := (busInit.Shutdown).1

/-- A bus observed in the middle of a shutdown drain. -/
def busDraining : Bus :=
  { NewBus 2 with initialized := true, shuttingDown := true }

/-- A bus with a single registered error observer. -/
def busObs : Bus := { NewBus 2 with errorHandlers := [5] }

/-- A bus with a missing adapter before a hitting adapter. -/
def busC5 : Bus :=
  { NewBus 2 with handlers := [hdlMark], cacheAdapters := [adapterRejectC, adapterHitD] }

/-- A bus whose single adapter always misses. -/
def busC5miss : Bus :=
  { NewBus 2 with handlers := [hdlMark], cacheAdapters := [adapterAcceptA] }

/-- A concrete pending streaming request with an open handle. -/
def pqFix : PendingIteratorQuery := { ctx := 0, qry := q1, res := newIteratorResult 0 }

/-! Helper lemmas about the trace instrumentation. -/

/-- Fan-out deliveries record no handler invocation. -/
theorem handlerCalls_deliveredMap (l : List Nat) (q : Option Qry) (e : Err) :
    handlerCalls (l.map (fun h => Event.errorDelivered h q e)) = [] := by
  induction l with
  | nil => rfl
  | cons a t ih => simp [handlerCalls, ih]

/-- The error fan-out records no handler invocation. -/
theorem handlerCalls_error (bus : Bus) (ctx : Ctx) (q : Option Qry) (e : Err) :
    handlerCalls (bus.error ctx q e) = [] :=
  handlerCalls_deliveredMap bus.errorHandlers q e

/-- handlerCalls distributes over trace concatenation. -/
theorem handlerCalls_append (l1 l2 : List Event) :
    handlerCalls (l1 ++ l2) = handlerCalls l1 ++ handlerCalls l2 := by
  simp [handlerCalls]

/-- Adapter read probes record no handler invocation. -/
theorem handlerCalls_adapterGetMap (l : List CacheAdapter) :
    handlerCalls (l.map (fun adp => Event.adapterGet adp.id)) = [] := by
  induction l with
  | nil => rfl
  | cons a t ih => simp [handlerCalls, ih]

/-- Adapter write calls record no handler invocation. -/
theorem handlerCalls_adapterSetMap (l : List CacheAdapter) :
    handlerCalls (l.map (fun adp => Event.adapterSet adp.id)) = [] := by
  induction l with
  | nil => rfl
  | cons a t ih => simp [handlerCalls, ih]

/-- Every registered observer receives a fanned-out error. -/
theorem mem_error_fanout (bus : Bus) (ctx : Ctx) (q : Option Qry) (e : Err) (h : Nat)
    (hh : h ∈ bus.errorHandlers) :
    Event.errorDelivered h q e ∈ bus.error ctx q e :=
  List.mem_map_of_mem _ hh

/-- The fan-out never closes an iterator handle. -/
theorem iterClose_not_mem_error (bus : Bus) (ctx : Ctx) (q : Option Qry) (e : Err) :
    Event.iterClose ∉ bus.error ctx q e := by
  simp [Bus.error]

/-- The drain loop pushes exactly one sentinel per outstanding worker. -/
theorem drainWorkers_count_sentinel (n : Nat) :
    (drainWorkers n).count Event.sentinelPushed = n := by
  induction n with
  | zero => rfl
  | succ k ih => simp [drainWorkers, List.count_cons, ih]

/-- The drain loop waits for exactly one closed acknowledgment per worker. -/
theorem drainWorkers_count_ack (n : Nat) :
    (drainWorkers n).count Event.workerClosedAck = n := by
  induction n with
  | zero => rfl
  | succ k ih => simp [drainWorkers, List.count_cons, ih]

/-- The drain loop performs no adapter shutdown. -/
theorem adapterShutdown_not_mem_drain (n : Nat) (i : Nat) :
    Event.adapterShutdown i ∉ drainWorkers n := by
  induction n with
  | zero => simp [drainWorkers]
  | succ k ih => simp [drainWorkers, ih]

/-- The spawn loop leaves the initialized flag alone. -/
theorem spawnWorkers_initialized (bus : Bus) (n : Nat) :
    (bus.spawnWorkers n).initialized = bus.initialized := by
  induction n with
  | zero => rfl
  | succ k ih => simpa [Bus.spawnWorkers, Bus.iteratorWorkerUp] using ih

/-- The spawn loop increments the live-worker count once per slot. -/
theorem spawnWorkers_workers (bus : Bus) (n : Nat) :
    (bus.spawnWorkers n).iteratorWorkers = bus.iteratorWorkers + n := by
  induction n with
  | zero => rfl
  | succ k ih =>
    simp only [Bus.spawnWorkers, Bus.iteratorWorkerUp, ih]
    omega

/-- C9: registering replacement cache adapters via the CacheAdapters setter
first calls Shutdown on every previously registered adapter — for a bus
fresh out of NewBus, exactly the default in-memory adapter — and then
installs the new list. -/
theorem c9_cacheAdapters_setter_shuts_down_previous (bus : Bus)
    (adps : List CacheAdapter) (g : Nat) :
    ((bus.CacheAdapters adps).2 =
      bus.cacheAdapters.map (fun adp => Event.adapterShutdown adp.id)) ∧
    ((bus.CacheAdapters adps).1.cacheAdapters = adps) ∧
    ((NewBus g).cacheAdapters = [NewMemoryCacheAdapter]) ∧
    (((NewBus g).CacheAdapters adps).2 =
      [Event.adapterShutdown NewMemoryCacheAdapter.id]) :=
  ⟨rfl, rfl, rfl, rfl⟩

/-- C10: when a worker abandons a pending streaming request because no
listener attached within the timeout, the handle comes back untouched and in
particular never closed: the trace holds only the fan-out deliveries of the
QueryTimedOut error, with no iterClose, so a consumer attaching later never
observes the channel close. -/
theorem c10_abandoned_request_handle_not_closed (bus : Bus)
    (pq : PendingIteratorQuery) :
    ((bus.iteratorWorkerStep (some pq) false).1 = WorkerStep.continued pq.res) ∧
    (Event.iterClose ∉ (bus.iteratorWorkerStep (some pq) false).2) ∧
    ((bus.iteratorWorkerStep (some pq) false).2 =
      bus.error pq.ctx (some pq.qry) (Err.queryTimedOut pq.qry.id)) ∧
    (pq.res.closed = false →
      ∃ r, (bus.iteratorWorkerStep (some pq) false).1 = WorkerStep.continued r ∧
        r.closed = false) := by
  refine ⟨rfl, ?_, rfl, ?_⟩
  · exact iterClose_not_mem_error bus pq.ctx (some pq.qry) (Err.queryTimedOut pq.qry.id)
  · intro h
    exact ⟨pq.res, rfl, h⟩

/-- Witness for C10 at a concrete open handle. -/
theorem c10_abandoned_request_handle_not_closed_witness :
    pqFix.res.closed = false ∧
    (∃ r, (busObs.iteratorWorkerStep (some pqFix) false).1 = WorkerStep.continued r ∧
      r.closed = false) :=
  ⟨rfl, (c10_abandoned_request_handle_not_closed busObs pqFix).2.2.2 rfl⟩

/-- C7: for a dequeued pending streaming request, if no consumer attaches
within the listener-wait timeout the request is abandoned — QueryTimedOut is
delivered to every registered error observer and the handler chain never runs
(no handler call in the trace) — while if a consumer attaches in time the
worker runs the streaming chain and then closes the iterator result. -/
theorem c7_worker_listener_wait (bus : Bus) (pq : PendingIteratorQuery) :
    (bus.iteratorWorkerStep (some pq) false =
      (WorkerStep.continued pq.res,
       bus.errorHandlers.map (fun h =>
         Event.errorDelivered h (some pq.qry) (Err.queryTimedOut pq.qry.id)))) ∧
    (handlerCalls (bus.iteratorWorkerStep (some pq) false).2 = []) ∧
    (∀ h, h ∈ bus.errorHandlers →
      Event.errorDelivered h (some pq.qry) (Err.queryTimedOut pq.qry.id) ∈
        (bus.iteratorWorkerStep (some pq) false).2) ∧
    (bus.iteratorWorkerStep (some pq) true =
      (WorkerStep.continued (bus.iteratorQuery pq.ctx pq.qry pq.res).1.close,
       (bus.iteratorQuery pq.ctx pq.qry pq.res).2 ++ [Event.iterClose])) ∧
    (((bus.iteratorQuery pq.ctx pq.qry pq.res).1.close).closed = true) := by
  refine ⟨rfl, ?_, ?_, rfl, rfl⟩
  · exact handlerCalls_error bus pq.ctx (some pq.qry) (Err.queryTimedOut pq.qry.id)
  · intro h hh
    exact mem_error_fanout bus pq.ctx (some pq.qry) (Err.queryTimedOut pq.qry.id) h hh

/-- Witness for C7: the registered observer at a concrete bus receives the
QueryTimedOut delivery. -/
theorem c7_worker_listener_wait_witness :
    5 ∈ busObs.errorHandlers ∧
    Event.errorDelivered 5 (some pqFix.qry) (Err.queryTimedOut pqFix.qry.id) ∈
      (busObs.iteratorWorkerStep (some pqFix) false).2 :=
  ⟨by decide, (c7_worker_listener_wait busObs pqFix).2.2.1 5 (by decide)⟩

/-- C6: the shutdown drain pushes one sentinel and collects one closed
acknowledgment per outstanding worker (a worker receiving the sentinel exits
at once), and only after the drain does it shut every cache adapter down and
clear the initialized and shutting-down flags, after which an Initialize call
wins the flag again and respawns the full pool. -/
theorem c6_shutdown_drain_order (bus : Bus) (hdls : List IterHandler) (b : Bool) :
    ((Bus.shutdown bus).2 =
      drainWorkers bus.iteratorWorkers
        ++ bus.cacheAdapters.map (fun adp => Event.adapterShutdown adp.id)) ∧
    ((drainWorkers bus.iteratorWorkers).count Event.sentinelPushed =
      bus.iteratorWorkers) ∧
    ((drainWorkers bus.iteratorWorkers).count Event.workerClosedAck =
      bus.iteratorWorkers) ∧
    (∀ i, Event.adapterShutdown i ∉ drainWorkers bus.iteratorWorkers) ∧
    (Event.sentinelPushed ∉
      bus.cacheAdapters.map (fun adp => Event.adapterShutdown adp.id)) ∧
    (Event.workerClosedAck ∉
      bus.cacheAdapters.map (fun adp => Event.adapterShutdown adp.id)) ∧
    (bus.iteratorWorkerStep none b = (WorkerStep.exited, [])) ∧
    ((Bus.shutdown bus).1.iteratorWorkers = 0) ∧
    ((Bus.shutdown bus).1.initialized = false) ∧
    ((Bus.shutdown bus).1.shuttingDown = false) ∧
    (((Bus.shutdown bus).1.InitializeIteratorHandlers hdls).initialized = true) ∧
    (((Bus.shutdown bus).1.InitializeIteratorHandlers hdls).iteratorWorkers =
      bus.iteratorWorkerPoolSize) := by
  refine ⟨rfl, drainWorkers_count_sentinel _, drainWorkers_count_ack _,
    fun i => adapterShutdown_not_mem_drain _ i, ?_, ?_, rfl, rfl, rfl, rfl, ?_, ?_⟩
  · simp
  · simp
  · simp [Bus.InitializeIteratorHandlers, Bus.initialize, Bus.shutdown,
      spawnWorkers_initialized]
  · simp [Bus.InitializeIteratorHandlers, Bus.initialize, Bus.shutdown,
      spawnWorkers_workers]

/-- Counterexample to C3: after a Shutdown has fully completed the drain
reset both flags, so a streaming query fails with NotInitialized — not with
ShuttingDown as the claim states. -/
theorem c3_counterexample_after_shutdown :
    (busDrained.IteratorQuery 0 (some q1)).2.1 = some Err.notInitialized ∧
    (busDrained.IteratorQuery 0 (some q1)).2.1 ≠ some Err.shuttingDown := by
  decide

/-- C3 as amended: a streaming query on an uninitialized bus fails with
NotInitialized; while a shutdown is in progress (both flags set) it fails
with ShuttingDown; a completed Shutdown clears both flags, so afterwards it
fails with NotInitialized again until re-initialized; a nil query fails with
InvalidQuery in every state. -/
theorem c3_amended_iterator_validation (bus : Bus) (ctx : Ctx) (q : Qry) :
    (bus.initialized = false →
      (bus.IteratorQuery ctx (some q)).2.1 = some Err.notInitialized) ∧
    (bus.initialized = true → bus.shuttingDown = true →
      (bus.IteratorQuery ctx (some q)).2.1 = some Err.shuttingDown) ∧
    (bus.shuttingDown = false →
      (bus.Shutdown).1.initialized = false ∧ (bus.Shutdown).1.shuttingDown = false) ∧
    ((bus.IteratorQuery ctx none).2.1 = some Err.invalidQuery) := by
  refine ⟨?_, ?_, ?_, ?_⟩
  · intro h
    simp [Bus.IteratorQuery, Bus.isIteratorValid, Bus.isValid, h]
  · intro h1 h2
    simp [Bus.IteratorQuery, Bus.isIteratorValid, Bus.isValid, h1, h2]
  · intro h
    simp [Bus.Shutdown, Bus.shutdown, h]
  · rfl

/-- Witness for C3 as amended, at concrete buses in each of the states. -/
theorem c3_amended_iterator_validation_witness :
    ((NewBus 2).initialized = false ∧
      ((NewBus 2).IteratorQuery 0 (some q1)).2.1 = some Err.notInitialized) ∧
    (busDraining.initialized = true ∧ busDraining.shuttingDown = true ∧
      (busDraining.IteratorQuery 0 (some q1)).2.1 = some Err.shuttingDown) ∧
    (busInit.shuttingDown = false ∧
      (busInit.Shutdown).1.initialized = false ∧
      (busInit.Shutdown).1.shuttingDown = false) :=
  ⟨⟨rfl, (c3_amended_iterator_validation (NewBus 2) 0 q1).1 rfl⟩,
   ⟨rfl, rfl, (c3_amended_iterator_validation busDraining 0 q1).2.1 rfl rfl⟩,
   ⟨rfl, ((c3_amended_iterator_validation busInit 0 q1).2.2.1 rfl).1,
    ((c3_amended_iterator_validation busInit 0 q1).2.2.1 rfl).2⟩⟩

/-- Counterexample to C4: a second sequential Shutdown made after the first
has fully completed wins the shuttingDown flag again (the drain cleared it)
and shuts the cache adapters down a second time. -/
theorem c4_counterexample_second_shutdown :
    Event.adapterShutdown 0 ∈ (busInit.Shutdown).2 ∧
    Event.adapterShutdown 0 ∈ (busDrained.Shutdown).2 ∧
    (busDrained.Shutdown).2 ≠ [] := by
  decide

/-- C4 as amended: only the caller that wins the shuttingDown flag performs
the drain, so a second call made while a shutdown is in progress is a no-op;
but because the drain clears the flag on completion, a call made after the
first has fully completed performs the drain again — re-invoking Shutdown on
every cache adapter — terminating immediately (no workers remain, so no
sentinel is pushed and nothing blocks). -/
theorem c4_amended_shutdown_flag (bus : Bus) :
    (bus.shuttingDown = true → bus.Shutdown = (bus, [])) ∧
    (bus.shuttingDown = false →
      ((bus.Shutdown).1.shuttingDown = false) ∧
      ((bus.Shutdown).1.iteratorWorkers = 0) ∧
      (((bus.Shutdown).1.Shutdown).2 =
        bus.cacheAdapters.map (fun adp => Event.adapterShutdown adp.id))) := by
  constructor
  · intro h
    simp [Bus.Shutdown, h]
  · intro h
    refine ⟨?_, ?_, ?_⟩ <;>
      simp [Bus.Shutdown, Bus.shutdown, h, drainWorkers]

/-- Witness for C4 as amended: the in-progress call is a no-op, and the
post-completion call re-shuts the default adapter without draining. -/
theorem c4_amended_shutdown_flag_witness :
    (busDraining.shuttingDown = true ∧ busDraining.Shutdown = (busDraining, [])) ∧
    (busInit.shuttingDown = false ∧
      ((busInit.Shutdown).1.Shutdown).2 = [Event.adapterShutdown 0]) :=
  ⟨⟨rfl, (c4_amended_shutdown_flag busDraining).1 rfl⟩,
   ⟨rfl, ((c4_amended_shutdown_flag busInit).2 rfl).2.2⟩⟩

/-- Counterexample to C8: a nil query makes the synchronous Query return a
nil result pointer alongside the error, not a usable empty result. -/
theorem c8_counterexample_nil_query :
    ((NewBus 3).Query 0 none 0).1 = none ∧
    ((NewBus 3).Query 0 none 0).2.1 = some Err.invalidQuery := by
  decide

/-- C8 as amended: a synchronous Query on a non-nil query always hands back a
non-nil (possibly empty) result, also when it fails; the nil-query validation
failure returns the InvalidQuery error directly with a nil result, and the
error is also delivered to every registered error observer. -/
theorem c8_amended_failure_results (bus : Bus) (ctx : Ctx) (qv : Qry) (now : Int) :
    ((bus.Query ctx (some qv) now).1.isSome = true) ∧
    (bus.Query ctx none now =
      (none, some Err.invalidQuery, bus.error ctx none Err.invalidQuery)) ∧
    (∀ h, h ∈ bus.errorHandlers →
      Event.errorDelivered h none Err.invalidQuery ∈ (bus.Query ctx none now).2.2) := by
  refine ⟨?_, rfl, ?_⟩
  · rcases h : bus.result ctx qv with ⟨r, cached, tr⟩
    cases cached <;> simp [Bus.Query, Bus.isValid, h]
  · intro h hh
    exact mem_error_fanout bus ctx none Err.invalidQuery h hh

/-- Witness for C8 as amended: the registered observer of a concrete bus
receives the InvalidQuery delivery. -/
theorem c8_amended_failure_results_witness :
    5 ∈ busObs.errorHandlers ∧
    Event.errorDelivered 5 none Err.invalidQuery ∈ (busObs.Query 0 none 0).2.2 :=
  ⟨by decide, (c8_amended_failure_results busObs 0 q1 0).2.2 5 (by decide)⟩

/-- Once an adapter has accepted, the write loop evaluates no further Set. -/
theorem setAdapters_true (ctx : Ctx) (q : Qry) (res : Result) (l : List CacheAdapter) :
    setAdapters ctx q res true l = (true, []) := by
  induction l with
  | nil => rfl
  | cons adp rest ih => simpa [setAdapters] using ih

/-- The write loop started not-yet-cached computes the short-circuit
disjunction and invokes Set exactly on the adapters up to the first
acceptance. -/
theorem setAdapters_spec (ctx : Ctx) (q : Qry) (res : Result) (l : List CacheAdapter) :
    setAdapters ctx q res false l =
      (setScan ctx q res l,
       (setAttempted ctx q res l).map (fun adp => Event.adapterSet adp.id)) := by
  induction l with
  | nil => rfl
  | cons adp rest ih =>
    cases hb : adp.set ctx q res with
    | true => simp [setAdapters, setScan, setAttempted, hb, setAdapters_true]
    | false => simp [setAdapters, setScan, setAttempted, hb, ih]

/-- With pure adapters, the short-circuit disjunction agrees with the full
disjunction: some adapter accepts. -/
theorem setScan_eq_any (ctx : Ctx) (q : Qry) (res : Result) (l : List CacheAdapter) :
    setScan ctx q res l = l.any (fun adp => adp.set ctx q res) := by
  induction l with
  | nil => rfl
  | cons adp rest ih => simp [setScan, ih]

/-- The adapters the write loop tries form a prefix of the registration
order. -/
theorem setAttempted_isPrefixOf (ctx : Ctx) (q : Qry) (res : Result)
    (l : List CacheAdapter) : setAttempted ctx q res l <+: l := by
  induction l with
  | nil => exact List.nil_prefix
  | cons adp rest ih =>
    by_cases hb : adp.set ctx q res = true
    · simp only [setAttempted, hb, if_true]
      exact ⟨rest, rfl⟩
    · simp only [setAttempted, hb, if_false, Bool.false_eq_true]
      exact List.cons_prefix_cons.mpr ⟨rfl, ih⟩

/-- The cache write-back records no handler invocation. -/
theorem handlerCalls_handleCache (bus : Bus) (ctx : Ctx) (q : Qry) (res : Result)
    (now : Int) : handlerCalls (bus.handleCache ctx q res now).2 = [] := by
  cases hqc : q.cacheable with
  | none => simp [Bus.handleCache, hqc, handlerCalls]
  | some ci =>
    by_cases hd : 0 < ci.duration
    · simp [Bus.handleCache, hqc, hd, setAdapters_spec, handlerCalls_adapterSetMap]
    · simp [Bus.handleCache, hqc, hd, handlerCalls]

/-- Counterexample to C1: with two accepting adapters registered and a
successful chain for a cacheable query, the write-back invokes Set on the
first adapter only — the boolean or short-circuits, so the second registered
adapter never receives the write call. -/
theorem c1_counterexample_set_skipped :
    busC1.cacheAdapters.map (fun adp => adp.id) = [1, 2] ∧
    (busC1.Query 0 (some qc) 100).2.1 = none ∧
    ((busC1.Query 0 (some qc) 100).1.map (fun r => r.isCached)) = some true ∧
    Event.adapterSet 1 ∈ (busC1.Query 0 (some qc) 100).2.2 ∧
    Event.adapterSet 2 ∉ (busC1.Query 0 (some qc) 100).2.2 := by
  decide

/-- C1 as amended: for a Cacheable query with strictly positive duration and
a chain that completed with the result handled, the write-back stamps the
expiry as dispatch time plus duration, invokes Set on the adapters in
registration order only up to and including the first one that accepts, and
marks the result cached exactly when some adapter's Set accepts the stored
result. -/
theorem c1_amended_cache_writeback (bus : Bus) (ctx : Ctx) (q : Qry) (res : Result)
    (now : Int) (ci : CacheInfo) (hc : q.cacheable = some ci) (hd : 0 < ci.duration)
    (hres : res.isCached = false) :
    ((bus.handleCache ctx q res now).1.expiresAt = now + ci.duration) ∧
    ((bus.handleCache ctx q res now).1.isCached =
      setScan ctx q (res.expires (now + ci.duration)) bus.cacheAdapters) ∧
    (setScan ctx q (res.expires (now + ci.duration)) bus.cacheAdapters =
      bus.cacheAdapters.any
        (fun adp => adp.set ctx q (res.expires (now + ci.duration)))) ∧
    ((bus.handleCache ctx q res now).2 =
      (setAttempted ctx q (res.expires (now + ci.duration)) bus.cacheAdapters).map
        (fun adp => Event.adapterSet adp.id)) ∧
    (setAttempted ctx q (res.expires (now + ci.duration)) bus.cacheAdapters <+:
      bus.cacheAdapters) ∧
    (∀ resH tr0, resH.isHandled = true →
      bus.queryAfterLoop ctx q resH now tr0 =
        ((bus.handleCache ctx q resH now).1, none,
         tr0 ++ (bus.handleCache ctx q resH now).2)) := by
  have hun : bus.handleCache ctx q res now =
      (if setScan ctx q (res.expires (now + ci.duration)) bus.cacheAdapters then
         (res.expires (now + ci.duration)).cached now
       else res.expires (now + ci.duration),
       (setAttempted ctx q (res.expires (now + ci.duration)) bus.cacheAdapters).map
         (fun adp => Event.adapterSet adp.id)) := by
    simp [Bus.handleCache, hc, hd, setAdapters_spec]
  refine ⟨?_, ?_, setScan_eq_any _ _ _ _, ?_, setAttempted_isPrefixOf _ _ _ _, ?_⟩
  · rw [hun]
    split
    · simp [Result.cached, Result.expires]
    · simp [Result.expires]
  · rw [hun]
    split
    · rename_i h
      simp [Result.cached, h]
    · rename_i h
      simp only [Bool.not_eq_true] at h
      rw [h]
      simp [Result.expires, hres]
  · rw [hun]
  · intro resH tr0 hH
    simp [Bus.queryAfterLoop, Result.isHandled, show resH.handled = true from hH]

/-- Witness for C1 as amended at a concrete bus, cacheable query and fresh
result. -/
theorem c1_amended_cache_writeback_witness :
    (qc.cacheable = some ciC) ∧ (0 < ciC.duration) ∧
    ((newCacheableResult qc).isCached = false) ∧
    ((busC1.handleCache 0 qc (newCacheableResult qc) 100).1.expiresAt =
      100 + ciC.duration) ∧
    ((busC1.handleCache 0 qc (newCacheableResult qc) 100).2 =
      (setAttempted 0 qc ((newCacheableResult qc).expires (100 + ciC.duration))
        busC1.cacheAdapters).map (fun adp => Event.adapterSet adp.id)) :=
  ⟨rfl, by decide, rfl,
   (c1_amended_cache_writeback busC1 0 qc (newCacheableResult qc) 100 ciC rfl
     (by decide) rfl).1,
   (c1_amended_cache_writeback busC1 0 qc (newCacheableResult qc) 100 ciC rfl
     (by decide) rfl).2.2.2.1⟩

/-- A probe that hits after a run of misses reads the missing adapters and
the hitting one, in order, and returns the hit. -/
theorem probeAdapters_hit (ctx : Ctx) (q : Qry) (l1 : List CacheAdapter)
    (a : CacheAdapter) (l2 : List CacheAdapter) (r : Result)
    (hmiss : ∀ adp ∈ l1, adp.get ctx q = none) (hhit : a.get ctx q = some r) :
    probeAdapters ctx q (l1 ++ a :: l2) =
      (some r, (l1 ++ [a]).map (fun x => Event.adapterGet x.id)) := by
  induction l1 with
  | nil => simp [probeAdapters, hhit]
  | cons b t ih =>
    have hb : b.get ctx q = none := hmiss b (by simp)
    have ih2 := ih (fun adp hadp => hmiss adp (by simp [hadp]))
    simp [probeAdapters, hb, ih2]

/-- A probe that misses every adapter reads them all, in order, and returns
nothing. -/
theorem probeAdapters_missAll (ctx : Ctx) (q : Qry) (l : List CacheAdapter)
    (hmiss : ∀ adp ∈ l, adp.get ctx q = none) :
    probeAdapters ctx q l = (none, l.map (fun x => Event.adapterGet x.id)) := by
  induction l with
  | nil => rfl
  | cons b t ih =>
    have hb : b.get ctx q = none := hmiss b (by simp)
    have ih2 := ih (fun adp hadp => hmiss adp (by simp [hadp]))
    simp [probeAdapters, hb, ih2]

/-- C5: for a Cacheable query the synchronous Query probes the adapters in
registration order; the first adapter returning a result wins — that result
comes back marked cache-sourced with a nil error and no handler is invoked —
while an adapter returning nothing advances the probe, and when every adapter
misses the dispatch falls through to the handler chain on a fresh cacheable
result. -/
theorem c5_cache_probe_order (bus : Bus) (ctx : Ctx) (q : Qry) (ci : CacheInfo)
    (now : Int) (hc : q.cacheable = some ci) :
    (∀ l1 a l2 r, bus.cacheAdapters = l1 ++ a :: l2 →
      (∀ adp ∈ l1, adp.get ctx q = none) → a.get ctx q = some r →
      (bus.Query ctx (some q) now =
        (some { r with fromCache := true }, none,
         (l1 ++ [a]).map (fun x => Event.adapterGet x.id))) ∧
      handlerCalls (bus.Query ctx (some q) now).2.2 = []) ∧
    ((∀ adp ∈ bus.cacheAdapters, adp.get ctx q = none) →
      bus.Query ctx (some q) now =
        (some (bus.query ctx q (newCacheableResult q) now).1,
         (bus.query ctx q (newCacheableResult q) now).2.1,
         bus.cacheAdapters.map (fun x => Event.adapterGet x.id) ++
           (bus.query ctx q (newCacheableResult q) now).2.2)) := by
  constructor
  · intro l1 a l2 r hdec hmiss hhit
    have hp := probeAdapters_hit ctx q l1 a l2 r hmiss hhit
    have hq : bus.Query ctx (some q) now =
        (some { r with fromCache := true }, none,
         (l1 ++ [a]).map (fun x => Event.adapterGet x.id)) := by
      simp [Bus.Query, Bus.isValid, Bus.result, hc, hdec, hp, Result.loadedFromCache]
    refine ⟨hq, ?_⟩
    rw [hq]
    exact handlerCalls_adapterGetMap (l1 ++ [a])
  · intro hmiss
    have hp := probeAdapters_missAll ctx q bus.cacheAdapters hmiss
    simp [Bus.Query, Bus.isValid, Bus.result, hc, hp]

/-- Witness for C5 at concrete buses: a miss-then-hit adapter list and an
all-miss adapter list. -/
theorem c5_cache_probe_order_witness :
    (qc.cacheable = some ciC) ∧
    (busC5.cacheAdapters = [adapterRejectC] ++ adapterHitD :: []) ∧
    (∀ adp ∈ [adapterRejectC], adp.get 0 qc = none) ∧
    (adapterHitD.get 0 qc = some hitResult) ∧
    (busC5.Query 0 (some qc) 100 =
      (some { hitResult with fromCache := true }, none,
       ([adapterRejectC] ++ [adapterHitD]).map (fun x => Event.adapterGet x.id))) ∧
    (handlerCalls (busC5.Query 0 (some qc) 100).2.2 = []) ∧
    (∀ adp ∈ busC5miss.cacheAdapters, adp.get 0 qc = none) ∧
    (busC5miss.Query 0 (some qc) 100 =
      (some (busC5miss.query 0 qc (newCacheableResult qc) 100).1,
       (busC5miss.query 0 qc (newCacheableResult qc) 100).2.1,
       busC5miss.cacheAdapters.map (fun x => Event.adapterGet x.id) ++
         (busC5miss.query 0 qc (newCacheableResult qc) 100).2.2)) := by
  have hm : ∀ adp ∈ [adapterRejectC], adp.get 0 qc = none := by decide
  have hm2 : ∀ adp ∈ busC5miss.cacheAdapters, adp.get 0 qc = none := by decide
  have h1 := (c5_cache_probe_order busC5 0 qc ciC 100 rfl).1
    [adapterRejectC] adapterHitD [] hitResult rfl hm rfl
  have h2 := (c5_cache_probe_order busC5miss 0 qc ciC 100 rfl).2 hm2
  exact ⟨rfl, rfl, hm, rfl, h1.1, h1.2, hm2, h2⟩

/-- A handler-call event prepends its index to the invocation subtrace. -/
theorem handlerCalls_cons_call (i : Nat) (t : List Event) :
    handlerCalls (Event.handlerCall i :: t) = i :: handlerCalls t := rfl

/-- The synchronous loop invokes handlers along a prefix of the registration
order: no reordering, and nothing after an early exit. -/
theorem queryLoop_calls_prefix (bus : Bus) (ctx : Ctx) (q : Qry) :
    ∀ (l : List (Nat × Handler)) (res : Result),
      handlerCalls (bus.queryLoop ctx q l res).2.2 <+: l.map Prod.fst := by
  intro l
  induction l with
  | nil => intro res; exact List.nil_prefix
  | cons p rest ih =>
    intro res
    obtain ⟨i, hdl⟩ := p
    rcases hh : hdl ctx q res with ⟨res1, e⟩
    cases e with
    | some err =>
      simp [Bus.queryLoop, hh, handlerCalls_cons_call, handlerCalls_error]
    | none =>
      by_cases hs : res1.propagationStopped = true
      · simp [Bus.queryLoop, hh, hs, handlerCalls_cons_call]
        exact List.nil_prefix
      · simp [Bus.queryLoop, hh, hs, handlerCalls_cons_call]
        exact ih res1

/-- A synchronous loop that ran to completion invoked every handler, in
exactly registration order. -/
theorem queryLoop_completed_calls (bus : Bus) (ctx : Ctx) (q : Qry) :
    ∀ (l : List (Nat × Handler)) (res res1 : Result) (tr : List Event),
      bus.queryLoop ctx q l res = (res1, LoopExit.completed, tr) →
      handlerCalls tr = l.map Prod.fst := by
  intro l
  induction l with
  | nil =>
    intro res res1 tr h
    simp only [Bus.queryLoop, Prod.mk.injEq] at h
    rw [← h.2.2]
    rfl
  | cons p rest ih =>
    intro res res1 tr h
    obtain ⟨i, hdl⟩ := p
    rcases hh : hdl ctx q res with ⟨r1, e⟩
    cases e with
    | some err => simp [Bus.queryLoop, hh, Prod.mk.injEq] at h
    | none =>
      by_cases hs : r1.propagationStopped = true
      · simp [Bus.queryLoop, hh, hs, Prod.mk.injEq] at h
      · rcases hout : bus.queryLoop ctx q rest r1 with ⟨r2, ex2, tr2⟩
        simp only [Bus.queryLoop, hh, hs, Bool.false_eq_true, if_false, hout,
          Prod.mk.injEq] at h
        obtain ⟨h1, h2, h3⟩ := h
        rw [← h3, handlerCalls_cons_call, List.map_cons]
        have hcomp : bus.queryLoop ctx q rest r1 = (r2, LoopExit.completed, tr2) := by
          rw [hout, h2]
        rw [ih r1 r2 tr2 hcomp]

/-- A synchronous loop exiting on a handler error delivered that error to
every registered observer before returning. -/
theorem queryLoop_errored_reported (bus : Bus) (ctx : Ctx) (q : Qry) :
    ∀ (l : List (Nat × Handler)) (res res1 : Result) (e : Err) (tr : List Event),
      bus.queryLoop ctx q l res = (res1, LoopExit.errored e, tr) →
      ∀ h ∈ bus.errorHandlers, Event.errorDelivered h (some q) e ∈ tr := by
  intro l
  induction l with
  | nil => intro res res1 e tr h; simp [Bus.queryLoop, Prod.mk.injEq] at h
  | cons p rest ih =>
    intro res res1 e tr heq hob hmem
    obtain ⟨i, hdl⟩ := p
    rcases hh : hdl ctx q res with ⟨r1, e0⟩
    cases e0 with
    | some err =>
      simp only [Bus.queryLoop, hh, Prod.mk.injEq, LoopExit.errored.injEq] at heq
      obtain ⟨h1, h2, h3⟩ := heq
      rw [← h3]
      exact List.mem_cons_of_mem _ (h2 ▸ mem_error_fanout bus ctx (some q) err hob hmem)
    | none =>
      by_cases hs : r1.propagationStopped = true
      · simp [Bus.queryLoop, hh, hs, Prod.mk.injEq] at heq
      · rcases hout : bus.queryLoop ctx q rest r1 with ⟨r2, ex2, tr2⟩
        simp only [Bus.queryLoop, hh, hs, Bool.false_eq_true, if_false, hout,
          Prod.mk.injEq] at heq
        obtain ⟨h1, h2, h3⟩ := heq
        rw [← h3]
        have herr : bus.queryLoop ctx q rest r1 = (r2, LoopExit.errored e, tr2) := by
          rw [hout, h2]
        exact List.mem_cons_of_mem _ (ih r1 r2 e tr2 herr hob hmem)

/-- The streaming loop invokes handlers along a prefix of the registration
order. -/
theorem iterLoop_calls_prefix (bus : Bus) (ctx : Ctx) (q : Qry) :
    ∀ (l : List (Nat × IterHandler)) (res : IterResult),
      handlerCalls (bus.iterLoop ctx q l res).2.2 <+: l.map Prod.fst := by
  intro l
  induction l with
  | nil => intro res; exact List.nil_prefix
  | cons p rest ih =>
    intro res
    obtain ⟨i, hdl⟩ := p
    rcases hh : hdl ctx q res with ⟨res1, e⟩
    cases e with
    | some err =>
      simp [Bus.iterLoop, hh, handlerCalls_cons_call, handlerCalls_error]
    | none =>
      by_cases hs : res1.propagationStopped = true
      · simp [Bus.iterLoop, hh, hs, handlerCalls_cons_call]
        exact List.nil_prefix
      · simp [Bus.iterLoop, hh, hs, handlerCalls_cons_call]
        exact ih res1

/-- A streaming loop that ran to completion invoked every handler, in exactly
registration order. -/
theorem iterLoop_completed_calls (bus : Bus) (ctx : Ctx) (q : Qry) :
    ∀ (l : List (Nat × IterHandler)) (res res1 : IterResult) (tr : List Event),
      bus.iterLoop ctx q l res = (res1, LoopExit.completed, tr) →
      handlerCalls tr = l.map Prod.fst := by
  intro l
  induction l with
  | nil =>
    intro res res1 tr h
    simp only [Bus.iterLoop, Prod.mk.injEq] at h
    rw [← h.2.2]
    rfl
  | cons p rest ih =>
    intro res res1 tr h
    obtain ⟨i, hdl⟩ := p
    rcases hh : hdl ctx q res with ⟨r1, e⟩
    cases e with
    | some err => simp [Bus.iterLoop, hh, Prod.mk.injEq] at h
    | none =>
      by_cases hs : r1.propagationStopped = true
      · simp [Bus.iterLoop, hh, hs, Prod.mk.injEq] at h
      · rcases hout : bus.iterLoop ctx q rest r1 with ⟨r2, ex2, tr2⟩
        simp only [Bus.iterLoop, hh, hs, Bool.false_eq_true, if_false, hout,
          Prod.mk.injEq] at h
        obtain ⟨h1, h2, h3⟩ := h
        rw [← h3, handlerCalls_cons_call, List.map_cons]
        have hcomp : bus.iterLoop ctx q rest r1 = (r2, LoopExit.completed, tr2) := by
          rw [hout, h2]
        rw [ih r1 r2 tr2 hcomp]

/-- A streaming loop exiting on a handler error delivered that error to every
registered observer before returning. -/
theorem iterLoop_errored_reported (bus : Bus) (ctx : Ctx) (q : Qry) :
    ∀ (l : List (Nat × IterHandler)) (res res1 : IterResult) (e : Err) (tr : List Event),
      bus.iterLoop ctx q l res = (res1, LoopExit.errored e, tr) →
      ∀ h ∈ bus.errorHandlers, Event.errorDelivered h (some q) e ∈ tr := by
  intro l
  induction l with
  | nil => intro res res1 e tr h; simp [Bus.iterLoop, Prod.mk.injEq] at h
  | cons p rest ih =>
    intro res res1 e tr heq hob hmem
    obtain ⟨i, hdl⟩ := p
    rcases hh : hdl ctx q res with ⟨r1, e0⟩
    cases e0 with
    | some err =>
      simp only [Bus.iterLoop, hh, Prod.mk.injEq, LoopExit.errored.injEq] at heq
      obtain ⟨h1, h2, h3⟩ := heq
      rw [← h3]
      exact List.mem_cons_of_mem _ (h2 ▸ mem_error_fanout bus ctx (some q) err hob hmem)
    | none =>
      by_cases hs : r1.propagationStopped = true
      · simp [Bus.iterLoop, hh, hs, Prod.mk.injEq] at heq
      · rcases hout : bus.iterLoop ctx q rest r1 with ⟨r2, ex2, tr2⟩
        simp only [Bus.iterLoop, hh, hs, Bool.false_eq_true, if_false, hout,
          Prod.mk.injEq] at heq
        obtain ⟨h1, h2, h3⟩ := heq
        rw [← h3]
        have herr : bus.iterLoop ctx q rest r1 = (r2, LoopExit.errored e, tr2) := by
          rw [hout, h2]
        exact List.mem_cons_of_mem _ (ih r1 r2 e tr2 herr hob hmem)

/-- The synchronous dispatch adds no handler invocation after the loop. -/
theorem handlerCalls_query (bus : Bus) (ctx : Ctx) (q : Qry) (res : Result)
    (now : Int) :
    handlerCalls (bus.query ctx q res now).2.2 =
      handlerCalls (bus.queryLoop ctx q bus.handlers.enum res).2.2 := by
  rcases hL : bus.queryLoop ctx q bus.handlers.enum res with ⟨res1, ex, tr⟩
  cases ex with
  | errored e => simp [Bus.query, hL]
  | completed =>
    by_cases hH : res1.isHandled = true <;>
      simp [Bus.query, hL, Bus.queryAfterLoop, hH, handlerCalls_append,
        handlerCalls_error, handlerCalls_handleCache]
  | stopped =>
    by_cases hH : res1.isHandled = true <;>
      simp [Bus.query, hL, Bus.queryAfterLoop, hH, handlerCalls_append,
        handlerCalls_error, handlerCalls_handleCache]

/-- The streaming dispatch adds no handler invocation after the loop. -/
theorem handlerCalls_iteratorQuery (bus : Bus) (ctx : Ctx) (q : Qry)
    (res : IterResult) :
    handlerCalls (bus.iteratorQuery ctx q res).2 =
      handlerCalls (bus.iterLoop ctx q bus.iteratorHandlers.enum res).2.2 := by
  rcases hL : bus.iterLoop ctx q bus.iteratorHandlers.enum res with ⟨res1, ex, tr⟩
  cases ex with
  | errored e => simp [Bus.iteratorQuery, hL]
  | completed =>
    by_cases hH : res1.isHandled = true <;>
      simp [Bus.iteratorQuery, hL, hH, handlerCalls_append, handlerCalls_error]
  | stopped => simp [Bus.iteratorQuery, hL]

/-- Counterexample to C2: in a streaming dispatch, a run ended early by a
propagation stop skips the handled check, so NoHandlersFound is never
synthesized even though the result was never marked handled and an observer
is registered — the trace holds the one handler call and nothing else. -/
theorem c2_counterexample_stream_stop :
    (7 ∈ busIterStop.errorHandlers) ∧
    ((busIterStop.iteratorQuery 0 q1 (newIteratorResult 0)).1.isHandled = false) ∧
    ((busIterStop.iteratorQuery 0 q1 (newIteratorResult 0)).2 =
      [Event.handlerCall 0]) ∧
    (Event.errorDelivered 7 (some q1) (Err.noHandlersFound q1.id) ∉
      (busIterStop.iteratorQuery 0 q1 (newIteratorResult 0)).2) := by
  decide

/-- C2 as amended: in both dispatches handlers run in fixed registration
order (the invocation subtrace is a prefix of the registration indices, the
whole of it when the loop completes); a handler error aborts the chain at the
failing handler, is delivered to every observer, and — synchronously — is
returned; a propagation stop ends the loop with no error, after which the
synchronous dispatch still runs the NoHandlersFound check (break) while the
streaming dispatch returns at once and skips it; and a completed loop that
never marked the result handled synthesizes and reports NoHandlersFound in
both dispatches. -/
theorem c2_amended_chain_rules (bus : Bus) (ctx : Ctx) (q : Qry) (res : Result)
    (resIt : IterResult) (now : Int) :
    (∀ res1 tr, bus.queryLoop ctx q bus.handlers.enum res =
        (res1, LoopExit.stopped, tr) → res1.isHandled = false →
      ((bus.query ctx q res now).2.1 = some (Err.noHandlersFound q.id)) ∧
      (∀ h ∈ bus.errorHandlers,
        Event.errorDelivered h (some q) (Err.noHandlersFound q.id) ∈
          (bus.query ctx q res now).2.2)) ∧
    (∀ r1 tr, bus.iterLoop ctx q bus.iteratorHandlers.enum resIt =
        (r1, LoopExit.stopped, tr) →
      bus.iteratorQuery ctx q resIt = (r1, tr)) ∧
    (handlerCalls (bus.query ctx q res now).2.2 <+:
      List.range bus.handlers.length) ∧
    (handlerCalls (bus.iteratorQuery ctx q resIt).2 <+:
      List.range bus.iteratorHandlers.length) ∧
    (∀ res1 tr, bus.queryLoop ctx q bus.handlers.enum res =
        (res1, LoopExit.completed, tr) →
      handlerCalls tr = List.range bus.handlers.length) ∧
    (∀ r1 tr, bus.iterLoop ctx q bus.iteratorHandlers.enum resIt =
        (r1, LoopExit.completed, tr) →
      handlerCalls tr = List.range bus.iteratorHandlers.length) ∧
    (∀ i hdl rest res0 res1 e, hdl ctx q res0 = (res1, some e) →
      bus.queryLoop ctx q ((i, hdl) :: rest) res0 =
        (res1, LoopExit.errored e,
         Event.handlerCall i :: bus.error ctx (some q) e)) ∧
    (∀ res1 e tr, bus.queryLoop ctx q bus.handlers.enum res =
        (res1, LoopExit.errored e, tr) →
      (bus.query ctx q res now = (res1, some e, tr)) ∧
      (∀ h ∈ bus.errorHandlers, Event.errorDelivered h (some q) e ∈ tr)) ∧
    (∀ i hdl rest r0 r1 e, hdl ctx q r0 = (r1, some e) →
      bus.iterLoop ctx q ((i, hdl) :: rest) r0 =
        (r1, LoopExit.errored e,
         Event.handlerCall i :: bus.error ctx (some q) e)) ∧
    (∀ r1 e tr, bus.iterLoop ctx q bus.iteratorHandlers.enum resIt =
        (r1, LoopExit.errored e, tr) →
      (bus.iteratorQuery ctx q resIt = (r1, tr)) ∧
      (∀ h ∈ bus.errorHandlers, Event.errorDelivered h (some q) e ∈ tr)) ∧
    (∀ res1 tr, bus.queryLoop ctx q bus.handlers.enum res =
        (res1, LoopExit.completed, tr) → res1.isHandled = false →
      ((bus.query ctx q res now).2.1 = some (Err.noHandlersFound q.id)) ∧
      (∀ h ∈ bus.errorHandlers,
        Event.errorDelivered h (some q) (Err.noHandlersFound q.id) ∈
          (bus.query ctx q res now).2.2)) ∧
    (∀ r1 tr, bus.iterLoop ctx q bus.iteratorHandlers.enum resIt =
        (r1, LoopExit.completed, tr) → r1.isHandled = false →
      ∀ h ∈ bus.errorHandlers,
        Event.errorDelivered h (some q) (Err.noHandlersFound q.id) ∈
          (bus.iteratorQuery ctx q resIt).2) := by
  refine ⟨?_, ?_, ?_, ?_, ?_, ?_, ?_, ?_, ?_, ?_, ?_, ?_⟩
  · intro res1 tr hL hH
    have hq : bus.query ctx q res now =
        (res1, some (Err.noHandlersFound q.id),
         tr ++ bus.error ctx (some q) (Err.noHandlersFound q.id)) := by
      simp [Bus.query, hL, Bus.queryAfterLoop, Result.isHandled,
        show res1.handled = false from hH]
    rw [hq]
    exact ⟨rfl, fun h hh =>
      List.mem_append_right _ (mem_error_fanout bus ctx (some q) _ h hh)⟩
  · intro r1 tr hL
    simp [Bus.iteratorQuery, hL]
  · rw [handlerCalls_query]
    have := queryLoop_calls_prefix bus ctx q bus.handlers.enum res
    rwa [List.enum_map_fst] at this
  · rw [handlerCalls_iteratorQuery]
    have := iterLoop_calls_prefix bus ctx q bus.iteratorHandlers.enum resIt
    rwa [List.enum_map_fst] at this
  · intro res1 tr hL
    have := queryLoop_completed_calls bus ctx q bus.handlers.enum res res1 tr hL
    rwa [List.enum_map_fst] at this
  · intro r1 tr hL
    have := iterLoop_completed_calls bus ctx q bus.iteratorHandlers.enum resIt r1 tr hL
    rwa [List.enum_map_fst] at this
  · intro i hdl rest res0 res1 e hh
    simp [Bus.queryLoop, hh]
  · intro res1 e tr hL
    refine ⟨by simp [Bus.query, hL], ?_⟩
    exact queryLoop_errored_reported bus ctx q bus.handlers.enum res res1 e tr hL
  · intro i hdl rest r0 r1 e hh
    simp [Bus.iterLoop, hh]
  · intro r1 e tr hL
    refine ⟨by simp [Bus.iteratorQuery, hL], ?_⟩
    exact iterLoop_errored_reported bus ctx q bus.iteratorHandlers.enum resIt r1 e tr hL
  · intro res1 tr hL hH
    have hq : bus.query ctx q res now =
        (res1, some (Err.noHandlersFound q.id),
         tr ++ bus.error ctx (some q) (Err.noHandlersFound q.id)) := by
      simp [Bus.query, hL, Bus.queryAfterLoop, Result.isHandled,
        show res1.handled = false from hH]
    rw [hq]
    exact ⟨rfl, fun h hh =>
      List.mem_append_right _ (mem_error_fanout bus ctx (some q) _ h hh)⟩
  · intro r1 tr hL hH hob hmem
    have hq : bus.iteratorQuery ctx q resIt =
        (r1, tr ++ bus.error ctx (some q) (Err.noHandlersFound q.id)) := by
      simp [Bus.iteratorQuery, hL, IterResult.isHandled,
        show r1.handled = false from hH]
    rw [hq]
    exact List.mem_append_right _ (mem_error_fanout bus ctx (some q) _ hob hmem)

/-- Witness for C2 as amended: a synchronous chain stopped by its only
handler without marking the result handled still returns and reports
NoHandlersFound, and the streaming loop equation of the stop conjunct holds
at a concrete stopping bus. -/
theorem c2_amended_chain_rules_witness :
    (busSyncStop.queryLoop 0 q1 busSyncStop.handlers.enum {} =
      (({ propStopped := true } : Result), LoopExit.stopped,
       [Event.handlerCall 0])) ∧
    ((({ propStopped := true } : Result)).isHandled = false) ∧
    ((busSyncStop.query 0 q1 {} 0).2.1 = some (Err.noHandlersFound q1.id)) ∧
    (7 ∈ busSyncStop.errorHandlers) ∧
    (Event.errorDelivered 7 (some q1) (Err.noHandlersFound q1.id) ∈
      (busSyncStop.query 0 q1 {} 0).2.2) ∧
    (busIterStop.iterLoop 0 q1 busIterStop.iteratorHandlers.enum
        (newIteratorResult 0) =
      (({ propStopped := true } : IterResult), LoopExit.stopped,
       [Event.handlerCall 0])) ∧
    (busIterStop.iteratorQuery 0 q1 (newIteratorResult 0) =
      (({ propStopped := true } : IterResult), [Event.handlerCall 0])) := by
  have h1 := (c2_amended_chain_rules busSyncStop 0 q1 {} (newIteratorResult 0) 0).1
    ({ propStopped := true } : Result) [Event.handlerCall 0] (by decide) rfl
  have h2 := (c2_amended_chain_rules busIterStop 0 q1 {} (newIteratorResult 0) 0).2.1
    ({ propStopped := true } : IterResult) [Event.handlerCall 0] (by decide)
  exact ⟨by decide, rfl, h1.1, by decide, h1.2 7 (by decide), by decide, h2⟩

end QueryBus
